import Mathlib

/-!
Verification of the background resolver in src/lib/backgroundContext.tsx.

The file models the resolver as pure functions over an explicit state:
the React component state (backgroundUrl, isLoaded), the module-level
in-memory tier (globalBackgroundUrl), the session tier (sessionStorage
under BG_SESSION_KEY) and the persisted tier (localStorage under
BG_CACHE_KEY).  Browser peculiarities are made explicit:

  - a StorageEnv records whether a window object exists and whether each
    storage read or write throws (quota, disabled storage, ...);
  - the persisted slot is an inductive: absent, malformed JSON, or a
    well-formed record with url and timestamp;
  - every call the code makes to Date.now() becomes a separate Int
    argument (tCacheRead for the expiry check in getCachedBackground,
    tGen for fetchNewBackground, tCacheWrite for setCachedBackground);
  - the asynchronous preloadImage is an oracle String to Bool: true
    means the image load event fired first, false means the error event
    or the 10 second timeout fired first;
  - JavaScript truthiness tests on string-or-null values are modelled by
    the function truthy, which maps none and some "" to none.
-/

namespace BackgroundResolver

/-- 24 hours in milliseconds, BG_EXPIRE_TIME in the source. -/
def BG_EXPIRE_TIME : Int := 24 * 60 * 60 * 1000

/-- 10 second load timeout, BG_LOAD_TIMEOUT in the source. -/
def BG_LOAD_TIMEOUT : Int := 10000

/-- The persisted record shape, interface BackgroundCache in the source. -/
structure BackgroundCache where
  url : String
  timestamp : Int
deriving DecidableEq

/-- Contents of the localStorage slot under BG_CACHE_KEY: absent, a string
that JSON.parse rejects, or a parsed record. -/
inductive PersistEntry where
  | absent : PersistEntry
  | malformed : PersistEntry
  | record : BackgroundCache → PersistEntry
deriving DecidableEq

/-- The two browser-storage tiers: the session slot (raw string) and the
persisted slot. -/
structure Storage where
  session : Option String
  persisted : PersistEntry
deriving DecidableEq

/-- Environment flags: whether a window object exists and whether each
storage access throws. -/
structure StorageEnv where
  hasWindow : Bool
  sessionReadFails : Bool
  sessionWriteFails : Bool
  localReadFails : Bool
  localWriteFails : Bool
deriving DecidableEq

/-- All storage accesses succeed: a browser with working storage. -/
def healthyEnv (env : StorageEnv) : Prop :=
  env.hasWindow = true ∧ env.sessionReadFails = false ∧
  env.sessionWriteFails = false ∧ env.localReadFails = false ∧
  env.localWriteFails = false

instance (env : StorageEnv) : Decidable (healthyEnv env) := by
  unfold healthyEnv; infer_instance

/-- JavaScript truthiness on a string-or-null value: null and the empty
string are falsy. -/
def truthy : Option String → Option String
  | none => none
  | some s => if s = "" then none else some s

/-- getGlobalBackground: read the module-level variable. -/
def getGlobalBackground (globalBg : Option String) : Option String :=
  globalBg

/-- setGlobalBackground: overwrite the module-level variable. -/
def setGlobalBackground (url : String) : Option String :=
  some url

/-- getSessionBackground: sessionStorage.getItem wrapped so that a missing
window or a throwing read yields null. -/
def getSessionBackground (env : StorageEnv) (store : Storage) : Option String :=
  if env.hasWindow = false then none
  else if env.sessionReadFails = true then none
  else store.session

/-- setSessionBackground: sessionStorage.setItem wrapped so that a missing
window is a no-op and a throwing write is only logged. -/
def setSessionBackground (env : StorageEnv) (store : Storage) (url : String) : Storage :=
  if env.hasWindow = false then store
  else if env.sessionWriteFails = true then store
  else { store with session := some url }

/-- getCachedBackground: read the localStorage record, treat a missing
window, a throwing read or malformed JSON as empty, purge and treat as
empty a record strictly older than BG_EXPIRE_TIME, otherwise return its
url.  Returns the value read together with the storage after the call
(the expiry branch removes the record). -/
def getCachedBackground (env : StorageEnv) (store : Storage) (now : Int) :
    Option String × Storage :=
  if env.hasWindow = false then (none, store)
  else if env.localReadFails = true then (none, store)
  else
    match store.persisted with
    | PersistEntry.absent => (none, store)
    | PersistEntry.malformed => (none, store)
    | PersistEntry.record data =>
        if now - data.timestamp > BG_EXPIRE_TIME then
          (none, { store with persisted := PersistEntry.absent })
        else
          (some data.url, store)

/-- setCachedBackground: write the record with the current time as its
timestamp; a missing window is a no-op and a throwing write is only
logged. -/
def setCachedBackground (env : StorageEnv) (store : Storage) (url : String)
    (now : Int) : Storage :=
  if env.hasWindow = false then store
  else if env.localWriteFails = true then store
  else { store with persisted := PersistEntry.record ⟨url, now⟩ }

/-- fetchNewBackground: build the provider URL with the current time as
the seed. -/
def fetchNewBackground (now : Int) : String :=
  "https://loliapi.com/acg/?seed=" ++ toString now

/-- The resolver state: the component state (backgroundUrl, isLoaded), the
module-level in-memory tier, and the browser storage. -/
structure ResolverState where
  backgroundUrl : String
  isLoaded : Bool
  globalBg : Option String
  store : Storage
deriving DecidableEq

/-- State at component mount on a fresh page load: useState gives the
empty url and isLoaded false, the module variable is null, and the
browser storage holds whatever survived. -/
def initialResolverState (store : Storage) : ResolverState :=
  { backgroundUrl := "", isLoaded := false, globalBg := none, store := store }

/-- initBackground: the one-shot resolution pass run from useEffect.
Tier order: in-memory, then session, then persisted with preload
validation (purging the record when preload fails), then a freshly
generated URL with preload validation, persisted only when fresh.  Any
successful resolution from the last two tiers is written to memory and
session. -/
def initBackground (env : StorageEnv) (preload : String → Bool)
    (tCacheRead tGen tCacheWrite : Int) (s : ResolverState) : ResolverState :=
  match truthy (getGlobalBackground s.globalBg) with
  | some globalUrl => { s with backgroundUrl := globalUrl }
  | none =>
    match truthy (getSessionBackground env s.store) with
    | some sessionUrl =>
        { s with backgroundUrl := sessionUrl,
                 globalBg := setGlobalBackground sessionUrl }
    | none =>
        let readResult := getCachedBackground env s.store tCacheRead
        let step3 : String × Storage :=
          match truthy readResult.1 with
          | some cached =>
              if preload cached then (cached, readResult.2)
              else ("", { readResult.2 with persisted := PersistEntry.absent })
          | none => ("", readResult.2)
        let step4 : String × Storage :=
          if step3.1 = "" then
            let newUrl := fetchNewBackground tGen
            if preload newUrl then
              (newUrl, setCachedBackground env step3.2 newUrl tCacheWrite)
            else ("", step3.2)
          else step3
        if step4.1 = "" then { s with store := step4.2 }
        else
          { s with backgroundUrl := step4.1,
                   globalBg := setGlobalBackground step4.1,
                   store := setSessionBackground env step4.2 step4.1 }

/-- setLoaded: the exposed action that marks the background as loaded. -/
def setLoaded (s : ResolverState) : ResolverState :=
  { s with isLoaded := true }

/-- refreshBackground: generate a fresh URL, validate it, and only on
success overwrite the component state, the memory tier, the session tier
and the persisted tier and reset isLoaded. -/
def refreshBackground (env : StorageEnv) (preload : String → Bool)
    (tGen tCacheWrite : Int) (s : ResolverState) : ResolverState :=
  let newUrl := fetchNewBackground tGen
  if preload newUrl then
    { s with backgroundUrl := newUrl,
             globalBg := setGlobalBackground newUrl,
             store := setCachedBackground env
               (setSessionBackground env s.store newUrl) newUrl tCacheWrite,
             isLoaded := false }
  else s

/-- A working browser environment, used for concrete instantiations. -/
def envOk : StorageEnv :=
  { hasWindow := true, sessionReadFails := false, sessionWriteFails := false,
    localReadFails := false, localWriteFails := false }

/-- Both browser tiers empty. -/
def emptyStorage : Storage :=
  { session := none, persisted := PersistEntry.absent }

theorem truthy_eq_some_iff (o : Option String) (u : String) :
    truthy o = some u ↔ o = some u ∧ u ≠ "" := by
  cases o with
  | none => simp [truthy]
  | some s =>
      by_cases hs : s = ""
      · subst hs
        simp only [truthy, if_pos rfl]
        constructor
        · intro h; exact absurd h (by simp)
        · rintro ⟨h1, h2⟩
          exact absurd (Option.some.inj h1).symm h2
      · simp only [truthy, if_neg hs, Option.some.injEq]
        constructor
        · intro h; exact ⟨h, h ▸ hs⟩
        · rintro ⟨h1, _⟩; exact h1

theorem truthy_eq_none_iff (o : Option String) :
    truthy o = none ↔ o = none ∨ o = some "" := by
  cases o with
  | none => simp [truthy]
  | some s =>
      simp only [truthy]
      by_cases h : s = "" <;> simp [h]

theorem fetchNewBackground_ne_empty (t : Int) : fetchNewBackground t ≠ "" := by
  intro h
  have h30 : ("https://loliapi.com/acg/?seed=" : String).length = 30 := by decide
  have hlen : (0 : Nat) = 30 + (toString t).length := by
    calc (0 : Nat) = ("" : String).length := rfl
    _ = (fetchNewBackground t).length := by rw [h]
    _ = 30 + (toString t).length := by
        rw [fetchNewBackground, String.length_append, h30]
  omega

theorem getSessionBackground_of_session_none (env : StorageEnv) (store : Storage)
    (h : store.session = none) : getSessionBackground env store = none := by
  unfold getSessionBackground
  split
  · rfl
  · split
    · rfl
    · exact h

theorem initBackground_global (env : StorageEnv) (preload : String → Bool)
    (tCacheRead tGen tCacheWrite : Int) (s : ResolverState) (g : String)
    (hg : truthy s.globalBg = some g) :
    initBackground env preload tCacheRead tGen tCacheWrite s =
      { s with backgroundUrl := g } := by
  simp only [initBackground, getGlobalBackground]
  rw [hg]

theorem initBackground_session (env : StorageEnv) (preload : String → Bool)
    (tCacheRead tGen tCacheWrite : Int) (s : ResolverState) (u : String)
    (hg : truthy s.globalBg = none)
    (hs : truthy (getSessionBackground env s.store) = some u) :
    initBackground env preload tCacheRead tGen tCacheWrite s =
      { s with backgroundUrl := u, globalBg := some u } := by
  simp only [initBackground, getGlobalBackground, setGlobalBackground]
  rw [hg, hs]

/-- The tier-3 and tier-4 part of initBackground, reached when the memory
and session tiers are both falsy: try the persisted URL with preload,
purging it on failure, then a freshly generated URL with preload,
persisting it on success, and finally write any resolved URL to the
memory and session tiers. -/
def initFallthrough (env : StorageEnv) (preload : String → Bool)
    (tCacheRead tGen tCacheWrite : Int) (s : ResolverState) : ResolverState :=
  let readResult := getCachedBackground env s.store tCacheRead
  let step3 : String × Storage :=
    match truthy readResult.1 with
    | some cached =>
        if preload cached then (cached, readResult.2)
        else ("", { readResult.2 with persisted := PersistEntry.absent })
    | none => ("", readResult.2)
  let step4 : String × Storage :=
    if step3.1 = "" then
      let newUrl := fetchNewBackground tGen
      if preload newUrl then
        (newUrl, setCachedBackground env step3.2 newUrl tCacheWrite)
      else ("", step3.2)
    else step3
  if step4.1 = "" then { s with store := step4.2 }
  else
    { s with backgroundUrl := step4.1,
             globalBg := setGlobalBackground step4.1,
             store := setSessionBackground env step4.2 step4.1 }

theorem initBackground_fallthrough (env : StorageEnv) (preload : String → Bool)
    (tCacheRead tGen tCacheWrite : Int) (s : ResolverState)
    (hg : truthy s.globalBg = none)
    (hs : truthy (getSessionBackground env s.store) = none) :
    initBackground env preload tCacheRead tGen tCacheWrite s =
      initFallthrough env preload tCacheRead tGen tCacheWrite s := by
  simp only [initBackground, initFallthrough, getGlobalBackground]
  rw [hg, hs]

theorem initFallthrough_cached_valid (env : StorageEnv) (preload : String → Bool)
    (tCacheRead tGen tCacheWrite : Int) (s : ResolverState) (u : String)
    (hr : truthy (getCachedBackground env s.store tCacheRead).1 = some u)
    (hp : preload u = true) :
    initFallthrough env preload tCacheRead tGen tCacheWrite s =
      { s with backgroundUrl := u, globalBg := some u,
               store := setSessionBackground env
                 (getCachedBackground env s.store tCacheRead).2 u } := by
  have hu : u ≠ "" := ((truthy_eq_some_iff _ _).mp hr).2
  simp only [initFallthrough, setGlobalBackground]
  rw [hr]
  simp [hp, hu]

theorem initFallthrough_cached_invalid_gen_valid (env : StorageEnv)
    (preload : String → Bool) (tCacheRead tGen tCacheWrite : Int)
    (s : ResolverState) (u : String)
    (hr : truthy (getCachedBackground env s.store tCacheRead).1 = some u)
    (hp : preload u = false) (hg : preload (fetchNewBackground tGen) = true) :
    initFallthrough env preload tCacheRead tGen tCacheWrite s =
      { s with backgroundUrl := fetchNewBackground tGen,
               globalBg := some (fetchNewBackground tGen),
               store := setSessionBackground env
                 (setCachedBackground env
                   { (getCachedBackground env s.store tCacheRead).2 with
                       persisted := PersistEntry.absent }
                   (fetchNewBackground tGen) tCacheWrite)
                 (fetchNewBackground tGen) } := by
  simp only [initFallthrough, setGlobalBackground]
  rw [hr]
  simp [hp, hg, fetchNewBackground_ne_empty]

theorem initFallthrough_cached_invalid_gen_invalid (env : StorageEnv)
    (preload : String → Bool) (tCacheRead tGen tCacheWrite : Int)
    (s : ResolverState) (u : String)
    (hr : truthy (getCachedBackground env s.store tCacheRead).1 = some u)
    (hp : preload u = false) (hg : preload (fetchNewBackground tGen) = false) :
    initFallthrough env preload tCacheRead tGen tCacheWrite s =
      { s with store := { (getCachedBackground env s.store tCacheRead).2 with
                            persisted := PersistEntry.absent } } := by
  simp only [initFallthrough, setGlobalBackground]
  rw [hr]
  simp [hp, hg]

theorem initFallthrough_nocache_gen_valid (env : StorageEnv)
    (preload : String → Bool) (tCacheRead tGen tCacheWrite : Int)
    (s : ResolverState)
    (hr : truthy (getCachedBackground env s.store tCacheRead).1 = none)
    (hg : preload (fetchNewBackground tGen) = true) :
    initFallthrough env preload tCacheRead tGen tCacheWrite s =
      { s with backgroundUrl := fetchNewBackground tGen,
               globalBg := some (fetchNewBackground tGen),
               store := setSessionBackground env
                 (setCachedBackground env
                   (getCachedBackground env s.store tCacheRead).2
                   (fetchNewBackground tGen) tCacheWrite)
                 (fetchNewBackground tGen) } := by
  simp only [initFallthrough, setGlobalBackground]
  rw [hr]
  simp [hg, fetchNewBackground_ne_empty]

theorem initFallthrough_nocache_gen_invalid (env : StorageEnv)
    (preload : String → Bool) (tCacheRead tGen tCacheWrite : Int)
    (s : ResolverState)
    (hr : truthy (getCachedBackground env s.store tCacheRead).1 = none)
    (hg : preload (fetchNewBackground tGen) = false) :
    initFallthrough env preload tCacheRead tGen tCacheWrite s =
      { s with store := (getCachedBackground env s.store tCacheRead).2 } := by
  simp only [initFallthrough, setGlobalBackground]
  rw [hr]
  simp [hg]

/-- C1: refreshBackground, in a working browser environment: when preload
of the freshly generated URL succeeds, backgroundUrl, the in-memory tier,
the session tier and the persisted tier all hold that same URL and
isLoaded is reset to false; when preload fails, the whole state is
unchanged. -/
theorem refreshBackground_spec (env : StorageEnv) (preload : String → Bool)
    (tGen tCacheWrite : Int) (s : ResolverState) (henv : healthyEnv env) :
    (preload (fetchNewBackground tGen) = true →
      (refreshBackground env preload tGen tCacheWrite s).backgroundUrl =
        fetchNewBackground tGen ∧
      (refreshBackground env preload tGen tCacheWrite s).globalBg =
        some (fetchNewBackground tGen) ∧
      (refreshBackground env preload tGen tCacheWrite s).store.session =
        some (fetchNewBackground tGen) ∧
      (refreshBackground env preload tGen tCacheWrite s).store.persisted =
        PersistEntry.record ⟨fetchNewBackground tGen, tCacheWrite⟩ ∧
      (refreshBackground env preload tGen tCacheWrite s).isLoaded = false) ∧
    (preload (fetchNewBackground tGen) = false →
      refreshBackground env preload tGen tCacheWrite s = s) := by
  obtain ⟨hw, _, hsw, _, hlw⟩ := henv
  constructor
  · intro h
    simp [refreshBackground, setGlobalBackground, setSessionBackground,
      setCachedBackground, h, hw, hsw, hlw]
  · intro h
    simp [refreshBackground, h]

/-- Concrete instantiation of refreshBackground_spec: refreshing with an
always-valid preload from the mount state writes the generated URL into
the persisted tier with the write-time timestamp. -/
theorem refreshBackground_spec_witness :
    (refreshBackground envOk (fun _ => true) 0 5
        (initialResolverState emptyStorage)).store.persisted =
      PersistEntry.record ⟨fetchNewBackground 0, 5⟩ :=
  ((refreshBackground_spec envOk (fun _ => true) 0 5
      (initialResolverState emptyStorage) (by decide)).1 rfl).2.2.2.1

/-- C6: with a window and a working localStorage read, a persisted record
strictly older than 86400000 ms is reported absent and removed, a record
at most 86400000 ms old is returned unchanged, and initialization over an
expired record falls through to the freshly generated URL. -/
theorem getCachedBackground_expiry_spec (env : StorageEnv) (store : Storage)
    (preload : String → Bool) (url : String) (ts now tGen tCacheWrite : Int)
    (hw : env.hasWindow = true) (hlr : env.localReadFails = false)
    (hp : store.persisted = PersistEntry.record ⟨url, ts⟩) :
    (now - ts > BG_EXPIRE_TIME →
      getCachedBackground env store now =
        (none, { store with persisted := PersistEntry.absent })) ∧
    (now - ts ≤ BG_EXPIRE_TIME →
      getCachedBackground env store now = (some url, store)) ∧
    (now - ts > BG_EXPIRE_TIME → preload (fetchNewBackground tGen) = true →
      (initBackground env preload now tGen tCacheWrite
          (initialResolverState
            { session := none,
              persisted := PersistEntry.record ⟨url, ts⟩ })).backgroundUrl =
        fetchNewBackground tGen) := by
  refine ⟨?_, ?_, ?_⟩
  · intro h
    simp [getCachedBackground, hw, hlr, hp, h]
  · intro h
    simp [getCachedBackground, hw, hlr, hp, not_lt.mpr h]
  · intro h hgen
    set s0 : ResolverState := initialResolverState
      { session := none, persisted := PersistEntry.record ⟨url, ts⟩ } with hs0
    have hread : getCachedBackground env s0.store now =
        (none, { s0.store with persisted := PersistEntry.absent }) := by
      simp [getCachedBackground, hw, hlr, hs0, initialResolverState, h]
    rw [initBackground_fallthrough env preload now tGen tCacheWrite s0
        (by simp [hs0, initialResolverState, truthy])
        (by rw [getSessionBackground_of_session_none env s0.store
            (by simp [hs0, initialResolverState])]; rfl),
      initFallthrough_nocache_gen_valid env preload now tGen tCacheWrite s0
        (by rw [hread]; rfl) hgen]

/-- Concrete instantiation of getCachedBackground_expiry_spec: a record
written at time 0 and read at time 86400001 is purged. -/
theorem getCachedBackground_expiry_spec_witness :
    getCachedBackground envOk
        { session := none, persisted := PersistEntry.record ⟨"x", 0⟩ }
        86400001 =
      (none, { session := none, persisted := PersistEntry.absent }) :=
  (getCachedBackground_expiry_spec envOk
      { session := none, persisted := PersistEntry.record ⟨"x", 0⟩ }
      (fun _ => true) "x" 0 86400001 0 0 rfl rfl rfl).1 (by decide)

/-- C7: the first two tiers of initialization: a truthy in-memory URL is
adopted with no other state change at all (in particular no storage write
and no dependence on preload); otherwise a truthy session URL is adopted
and mirrored into the memory tier only, with storage unchanged. -/
theorem initBackground_tier_order (env : StorageEnv) (preload : String → Bool)
    (tCacheRead tGen tCacheWrite : Int) (s : ResolverState) (u : String) :
    (truthy s.globalBg = some u →
      initBackground env preload tCacheRead tGen tCacheWrite s =
        { s with backgroundUrl := u }) ∧
    (truthy s.globalBg = none →
      truthy (getSessionBackground env s.store) = some u →
      initBackground env preload tCacheRead tGen tCacheWrite s =
        { s with backgroundUrl := u, globalBg := some u }) := by
  constructor
  · intro hg
    exact initBackground_global env preload tCacheRead tGen tCacheWrite s u hg
  · intro hg hs
    exact initBackground_session env preload tCacheRead tGen tCacheWrite s u hg hs

/-- Memory tier already populated with the URL a. -/
def memTierState : ResolverState :=
  { backgroundUrl := "", isLoaded := false, globalBg := some "a",
    store := emptyStorage }

/-- Concrete instantiation of initBackground_tier_order: with the memory
tier holding the URL a, initialization adopts it and changes nothing
else, whatever preload would say. -/
theorem initBackground_tier_order_witness :
    initBackground envOk (fun _ => false) 0 0 0 memTierState =
      { memTierState with backgroundUrl := "a" } :=
  (initBackground_tier_order envOk (fun _ => false) 0 0 0 memTierState "a").1
    (by decide)

/-- C8: a throwing sessionStorage read yields null; a throwing or
malformed localStorage read yields null with storage untouched; a
throwing write of either tier leaves the storage entirely unchanged. -/
theorem storageAccessors_failure_degrade (env : StorageEnv) (store : Storage)
    (url : String) (now : Int) :
    (env.sessionReadFails = true → getSessionBackground env store = none) ∧
    (env.localReadFails = true →
      getCachedBackground env store now = (none, store)) ∧
    (env.localReadFails = false → store.persisted = PersistEntry.malformed →
      getCachedBackground env store now = (none, store)) ∧
    (env.sessionWriteFails = true → setSessionBackground env store url = store) ∧
    (env.localWriteFails = true → setCachedBackground env store url now = store) := by
  refine ⟨?_, ?_, ?_, ?_, ?_⟩
  · intro h
    simp [getSessionBackground, h]
  · intro h
    simp [getCachedBackground, h]
  · intro hlr hm
    simp [getCachedBackground, hlr, hm]
  · intro h
    simp [setSessionBackground, h]
  · intro h
    simp [setCachedBackground, h]

/-- Browser present but every storage access throws. -/
def envFail : StorageEnv :=
  { hasWindow := true, sessionReadFails := true, sessionWriteFails := true,
    localReadFails := true, localWriteFails := true }

/-- Concrete instantiation of storageAccessors_failure_degrade: a
throwing localStorage read degrades to the empty tier. -/
theorem storageAccessors_failure_degrade_witness :
    getCachedBackground envFail emptyStorage 0 = (none, emptyStorage) :=
  (storageAccessors_failure_degrade envFail emptyStorage "" 0).2.1 rfl

/-- C9: without a window object, every storage accessor is total: both
reads return null and both writes leave the storage unchanged. -/
theorem storageAccessors_no_window (env : StorageEnv) (store : Storage)
    (url : String) (now : Int) (hw : env.hasWindow = false) :
    getSessionBackground env store = none ∧
    setSessionBackground env store url = store ∧
    getCachedBackground env store now = (none, store) ∧
    setCachedBackground env store url now = store := by
  refine ⟨?_, ?_, ?_, ?_⟩ <;>
    simp [getSessionBackground, setSessionBackground, getCachedBackground,
      setCachedBackground, hw]

/-- Server-side rendering environment: no window object. -/
def envNoWindow : StorageEnv :=
  { hasWindow := false, sessionReadFails := false, sessionWriteFails := false,
    localReadFails := false, localWriteFails := false }

/-- Concrete instantiation of storageAccessors_no_window. -/
theorem storageAccessors_no_window_witness :
    getSessionBackground envNoWindow emptyStorage = none ∧
    setSessionBackground envNoWindow emptyStorage "x" = emptyStorage ∧
    getCachedBackground envNoWindow emptyStorage 7 = (none, emptyStorage) ∧
    setCachedBackground envNoWindow emptyStorage "x" 7 = emptyStorage :=
  storageAccessors_no_window envNoWindow emptyStorage "x" 7 rfl

theorem getSessionBackground_healthy (env : StorageEnv) (store : Storage)
    (henv : healthyEnv env) : getSessionBackground env store = store.session := by
  obtain ⟨hw, hsr, _, _, _⟩ := henv
  simp [getSessionBackground, hw, hsr]

theorem setSessionBackground_healthy (env : StorageEnv) (store : Storage)
    (url : String) (henv : healthyEnv env) :
    setSessionBackground env store url = { store with session := some url } := by
  obtain ⟨hw, _, hsw, _, _⟩ := henv
  simp [setSessionBackground, hw, hsw]

theorem setCachedBackground_healthy (env : StorageEnv) (store : Storage)
    (url : String) (now : Int) (henv : healthyEnv env) :
    setCachedBackground env store url now =
      { store with persisted := PersistEntry.record ⟨url, now⟩ } := by
  obtain ⟨hw, _, _, _, hlw⟩ := henv
  simp [setCachedBackground, hw, hlw]

theorem setSessionBackground_persisted (env : StorageEnv) (store : Storage)
    (url : String) :
    (setSessionBackground env store url).persisted = store.persisted := by
  unfold setSessionBackground
  split
  · rfl
  split
  · rfl
  · rfl

theorem setCachedBackground_session (env : StorageEnv) (store : Storage)
    (url : String) (now : Int) :
    (setCachedBackground env store url now).session = store.session := by
  unfold setCachedBackground
  split
  · rfl
  split
  · rfl
  · rfl

/-- States reachable from a start state by the three exposed operations:
the useEffect resolution pass, setLoaded, and refreshBackground, each
with arbitrary preload outcomes and clock readings. -/
inductive Reachable (env : StorageEnv) : ResolverState → ResolverState → Prop where
  | refl (s : ResolverState) : Reachable env s s
  | stepInit (preload : String → Bool) (tCacheRead tGen tCacheWrite : Int)
      {s t : ResolverState} (h : Reachable env s t) :
      Reachable env s (initBackground env preload tCacheRead tGen tCacheWrite t)
  | stepLoad {s t : ResolverState} (h : Reachable env s t) :
      Reachable env s (setLoaded t)
  | stepRefresh (preload : String → Bool) (tGen tCacheWrite : Int)
      {s t : ResolverState} (h : Reachable env s t) :
      Reachable env s (refreshBackground env preload tGen tCacheWrite t)

/-- The within-session consistency invariant: whenever the in-memory tier
is truthy, the session tier holds the same URL. -/
def memOk (s : ResolverState) : Prop :=
  ∀ v, truthy s.globalBg = some v → s.store.session = some v

theorem memOk_init (env : StorageEnv) (preload : String → Bool)
    (tCacheRead tGen tCacheWrite : Int) (s : ResolverState)
    (henv : healthyEnv env) (h : memOk s) :
    memOk (initBackground env preload tCacheRead tGen tCacheWrite s) := by
  cases hg : truthy s.globalBg with
  | some g =>
      rw [initBackground_global env preload tCacheRead tGen tCacheWrite s g hg]
      intro v hv
      exact h v hv
  | none =>
      cases hs : truthy (getSessionBackground env s.store) with
      | some u =>
          rw [initBackground_session env preload tCacheRead tGen tCacheWrite s u hg hs]
          intro v hv
          rw [getSessionBackground_healthy env s.store henv] at hs
          have hu : u ≠ "" := ((truthy_eq_some_iff _ _).mp hs).2
          have hvu : v = u := by
            rw [truthy_eq_some_iff] at hv
            exact (Option.some.inj hv.1).symm
          subst hvu
          exact ((truthy_eq_some_iff _ _).mp hs).1
      | none =>
          rw [initBackground_fallthrough env preload tCacheRead tGen tCacheWrite s hg hs]
          cases hr : truthy (getCachedBackground env s.store tCacheRead).1 with
          | some u =>
              cases hp : preload u with
              | true =>
                  rw [initFallthrough_cached_valid env preload tCacheRead tGen
                    tCacheWrite s u hr hp]
                  intro v hv
                  have hu : u ≠ "" := ((truthy_eq_some_iff _ _).mp hr).2
                  have hvu : v = u := by
                    rw [truthy_eq_some_iff] at hv
                    exact (Option.some.inj hv.1).symm
                  subst hvu
                  simp [setSessionBackground_healthy _ _ _ henv]
              | false =>
                  cases hgen : preload (fetchNewBackground tGen) with
                  | true =>
                      rw [initFallthrough_cached_invalid_gen_valid env preload
                        tCacheRead tGen tCacheWrite s u hr hp hgen]
                      intro v hv
                      have hvu : v = fetchNewBackground tGen := by
                        rw [truthy_eq_some_iff] at hv
                        exact (Option.some.inj hv.1).symm
                      subst hvu
                      simp [setSessionBackground_healthy _ _ _ henv]
                  | false =>
                      rw [initFallthrough_cached_invalid_gen_invalid env preload
                        tCacheRead tGen tCacheWrite s u hr hp hgen]
                      intro v hv
                      exact absurd (hg ▸ hv) (by simp)
          | none =>
              cases hgen : preload (fetchNewBackground tGen) with
              | true =>
                  rw [initFallthrough_nocache_gen_valid env preload tCacheRead
                    tGen tCacheWrite s hr hgen]
                  intro v hv
                  have hvu : v = fetchNewBackground tGen := by
                    rw [truthy_eq_some_iff] at hv
                    exact (Option.some.inj hv.1).symm
                  subst hvu
                  simp [setSessionBackground_healthy _ _ _ henv]
              | false =>
                  rw [initFallthrough_nocache_gen_invalid env preload tCacheRead
                    tGen tCacheWrite s hr hgen]
                  intro v hv
                  exact absurd (hg ▸ hv) (by simp)

theorem memOk_refresh (env : StorageEnv) (preload : String → Bool)
    (tGen tCacheWrite : Int) (s : ResolverState)
    (henv : healthyEnv env) (h : memOk s) :
    memOk (refreshBackground env preload tGen tCacheWrite s) := by
  cases hgen : preload (fetchNewBackground tGen) with
  | true =>
      have hr : refreshBackground env preload tGen tCacheWrite s =
          { s with backgroundUrl := fetchNewBackground tGen,
                   globalBg := some (fetchNewBackground tGen),
                   store := setCachedBackground env
                     (setSessionBackground env s.store (fetchNewBackground tGen))
                     (fetchNewBackground tGen) tCacheWrite,
                   isLoaded := false } := by
        simp [refreshBackground, setGlobalBackground, hgen]
      rw [hr]
      intro v hv
      have hvu : v = fetchNewBackground tGen := by
        rw [truthy_eq_some_iff] at hv
        exact (Option.some.inj hv.1).symm
      subst hvu
      simp [setCachedBackground_session,
        setSessionBackground_healthy _ _ _ henv]
  | false =>
      have hr : refreshBackground env preload tGen tCacheWrite s = s := by
        simp [refreshBackground, hgen]
      rw [hr]
      exact h

theorem memOk_reachable (env : StorageEnv) (s0 s : ResolverState)
    (henv : healthyEnv env) (hre : Reachable env s0 s) :
    memOk s0 → memOk s := by
  induction hre with
  | refl t => exact fun h => h
  | stepInit preload tCacheRead tGen tCacheWrite h ih =>
      exact fun h0 =>
        memOk_init env preload tCacheRead tGen tCacheWrite _ henv (ih h0)
  | stepLoad h ih =>
      exact fun h0 v hv => ih h0 v hv
  | stepRefresh preload tGen tCacheWrite h ih =>
      exact fun h0 =>
        memOk_refresh env preload tGen tCacheWrite _ henv (ih h0)

/-- C2: in a working browser, from any state reachable within a session
that started with an empty memory tier, if the session tier holds a
nonempty URL then every resolution pass adopts exactly that URL, leaves
the whole storage (session and persisted tiers, whatever the latter
holds) unchanged, and leaves the memory tier at that URL, so repeated
initialization keeps yielding it until a refresh changes the session
tier. -/
theorem initBackground_session_locked (env : StorageEnv)
    (preload : String → Bool) (tCacheRead tGen tCacheWrite : Int)
    (s0 s : ResolverState) (u : String)
    (henv : healthyEnv env) (h0 : s0.globalBg = none)
    (hre : Reachable env s0 s)
    (hsess : s.store.session = some u) (hu : u ≠ "") :
    (initBackground env preload tCacheRead tGen tCacheWrite s).backgroundUrl = u ∧
    (initBackground env preload tCacheRead tGen tCacheWrite s).store = s.store ∧
    (initBackground env preload tCacheRead tGen tCacheWrite s).globalBg = some u := by
  have hm : memOk s := by
    refine memOk_reachable env s0 s henv hre ?_
    intro v hv
    rw [h0] at hv
    exact absurd hv (by simp [truthy])
  cases hg : truthy s.globalBg with
  | some g =>
      have hsg : s.store.session = some g := hm g hg
      have hgu : g = u := Option.some.inj (hsg.symm.trans hsess)
      subst hgu
      rw [initBackground_global env preload tCacheRead tGen tCacheWrite s g hg]
      have hgb : s.globalBg = some g := ((truthy_eq_some_iff _ _).mp hg).1
      exact ⟨rfl, rfl, hgb⟩
  | none =>
      have hs : truthy (getSessionBackground env s.store) = some u := by
        rw [getSessionBackground_healthy env s.store henv, hsess]
        simp [truthy, hu]
      rw [initBackground_session env preload tCacheRead tGen tCacheWrite s u hg hs]
      exact ⟨rfl, rfl, rfl⟩

/-- A state with a session-tier URL already locked. -/
def sessState : ResolverState :=
  { backgroundUrl := "", isLoaded := false, globalBg := none,
    store := { session := some "x", persisted := PersistEntry.absent } }

/-- Concrete instantiation of initBackground_session_locked: with the
session tier holding x, a resolution pass yields x and leaves the
storage unchanged. -/
theorem initBackground_session_locked_witness :
    (initBackground envOk (fun _ => false) 0 0 0 sessState).backgroundUrl = "x" ∧
    (initBackground envOk (fun _ => false) 0 0 0 sessState).store =
      sessState.store ∧
    (initBackground envOk (fun _ => false) 0 0 0 sessState).globalBg = some "x" :=
  initBackground_session_locked envOk (fun _ => false) 0 0 0 sessState sessState
    "x" (by decide) rfl (Reachable.refl sessState) rfl (by decide)

/-- Fresh page load over a non-expired persisted record. -/
def cachedStartState (url : String) (ts : Int) : ResolverState :=
  initialResolverState
    { session := none, persisted := PersistEntry.record ⟨url, ts⟩ }

/-- Fresh page load with both browser tiers empty. -/
def freshStartState : ResolverState :=
  initialResolverState emptyStorage

theorem cachedStartState_read (env : StorageEnv) (url : String)
    (ts tCacheRead : Int) (henv : healthyEnv env) (hfresh : tCacheRead - ts ≤ BG_EXPIRE_TIME) :
    getCachedBackground env (cachedStartState url ts).store tCacheRead =
      (some url, (cachedStartState url ts).store) := by
  obtain ⟨hw, _, _, hlr, _⟩ := henv
  simp [getCachedBackground, cachedStartState, initialResolverState, hw, hlr,
    not_lt.mpr hfresh]

/-- C3: in a working browser on a fresh page load, the persisted write is
asymmetric: a non-expired persisted URL that passes preload is adopted
and written to the memory and session tiers while the persisted record,
timestamp included, stays exactly as it was; a freshly generated URL that
passes preload is written to all three tiers, the persisted one with the
write-time timestamp. -/
theorem initBackground_persist_write_policy (env : StorageEnv)
    (preload : String → Bool) (tCacheRead tGen tCacheWrite : Int)
    (url : String) (ts : Int) (henv : healthyEnv env) :
    (url ≠ "" → tCacheRead - ts ≤ BG_EXPIRE_TIME → preload url = true →
      (initBackground env preload tCacheRead tGen tCacheWrite
          (cachedStartState url ts)).backgroundUrl = url ∧
      (initBackground env preload tCacheRead tGen tCacheWrite
          (cachedStartState url ts)).globalBg = some url ∧
      (initBackground env preload tCacheRead tGen tCacheWrite
          (cachedStartState url ts)).store.session = some url ∧
      (initBackground env preload tCacheRead tGen tCacheWrite
          (cachedStartState url ts)).store.persisted =
        PersistEntry.record ⟨url, ts⟩) ∧
    (preload (fetchNewBackground tGen) = true →
      (initBackground env preload tCacheRead tGen tCacheWrite
          freshStartState).backgroundUrl = fetchNewBackground tGen ∧
      (initBackground env preload tCacheRead tGen tCacheWrite
          freshStartState).globalBg = some (fetchNewBackground tGen) ∧
      (initBackground env preload tCacheRead tGen tCacheWrite
          freshStartState).store.session = some (fetchNewBackground tGen) ∧
      (initBackground env preload tCacheRead tGen tCacheWrite
          freshStartState).store.persisted =
        PersistEntry.record ⟨fetchNewBackground tGen, tCacheWrite⟩) := by
  constructor
  · intro hu hfresh hp
    have hread := cachedStartState_read env url ts tCacheRead henv hfresh
    rw [initBackground_fallthrough env preload tCacheRead tGen tCacheWrite
        (cachedStartState url ts) rfl
        (by rw [getSessionBackground_of_session_none env _ rfl]; rfl),
      initFallthrough_cached_valid env preload tCacheRead tGen tCacheWrite
        (cachedStartState url ts) url
        (by rw [hread]; simp [truthy, hu]) hp,
      hread]
    simp [setSessionBackground_healthy _ _ _ henv, cachedStartState,
      initialResolverState]
  · intro hgen
    have hw := henv.1
    have hlr := henv.2.2.2.1
    have hread : getCachedBackground env freshStartState.store tCacheRead =
        (none, freshStartState.store) := by
      simp [getCachedBackground, freshStartState, initialResolverState,
        emptyStorage, hw, hlr]
    rw [initBackground_fallthrough env preload tCacheRead tGen tCacheWrite
        freshStartState rfl
        (by rw [getSessionBackground_of_session_none env _ rfl]; rfl),
      initFallthrough_nocache_gen_valid env preload tCacheRead tGen tCacheWrite
        freshStartState (by rw [hread]; rfl) hgen,
      hread]
    simp [setSessionBackground_healthy _ _ _ henv,
      setCachedBackground_healthy _ _ _ _ henv, freshStartState,
      initialResolverState, emptyStorage]

/-- Concrete instantiation of initBackground_persist_write_policy: a
persisted record written at time 0, revalidated at time 1000, keeps its
timestamp 0. -/
theorem initBackground_persist_write_policy_witness :
    (initBackground envOk (fun _ => true) 1000 1000 1000
        (cachedStartState "x" 0)).store.persisted =
      PersistEntry.record ⟨"x", 0⟩ :=
  ((initBackground_persist_write_policy envOk (fun _ => true) 1000 1000 1000
      "x" 0 (by decide)).1 (by decide) (by decide) rfl).2.2.2

/-- C4 counterexample: with the clock at 1000 when the URL is generated
and at 2000 when the persisted record is written, the persisted timestamp
is 2000, not the seed 1000 claimed. -/
theorem initBackground_seed_timestamp_counterexample :
    (initBackground envOk (fun _ => true) 0 1000 2000
        freshStartState).store.persisted =
      PersistEntry.record ⟨fetchNewBackground 1000, 2000⟩ ∧
    (initBackground envOk (fun _ => true) 0 1000 2000
        freshStartState).store.persisted ≠
      PersistEntry.record ⟨fetchNewBackground 1000, 1000⟩ := by
  constructor
  · rfl
  · decide

/-- C4 (amended): starting from empty tiers, when the generated URL with
seed T1 passes preload, backgroundUrl and the session tier hold that URL
and the persisted tier holds the record with that URL and the timestamp
T2 of the later Date.now() call made at the persisted write, which need
not equal T1. -/
theorem initBackground_fresh_generation (env : StorageEnv)
    (preload : String → Bool) (tCacheRead tGen tCacheWrite : Int)
    (henv : healthyEnv env)
    (hgen : preload (fetchNewBackground tGen) = true) :
    (initBackground env preload tCacheRead tGen tCacheWrite
        freshStartState).backgroundUrl = fetchNewBackground tGen ∧
    (initBackground env preload tCacheRead tGen tCacheWrite
        freshStartState).store.session = some (fetchNewBackground tGen) ∧
    (initBackground env preload tCacheRead tGen tCacheWrite
        freshStartState).store.persisted =
      PersistEntry.record ⟨fetchNewBackground tGen, tCacheWrite⟩ := by
  have hw := henv.1
  have hlr := henv.2.2.2.1
  have hread : getCachedBackground env freshStartState.store tCacheRead =
      (none, freshStartState.store) := by
    simp [getCachedBackground, freshStartState, initialResolverState,
      emptyStorage, hw, hlr]
  rw [initBackground_fallthrough env preload tCacheRead tGen tCacheWrite
      freshStartState rfl
      (by rw [getSessionBackground_of_session_none env _ rfl]; rfl),
    initFallthrough_nocache_gen_valid env preload tCacheRead tGen tCacheWrite
      freshStartState (by rw [hread]; rfl) hgen,
    hread]
  simp [setSessionBackground_healthy _ _ _ henv,
    setCachedBackground_healthy _ _ _ _ henv, freshStartState,
    initialResolverState, emptyStorage]

/-- Concrete instantiation of initBackground_fresh_generation. -/
theorem initBackground_fresh_generation_witness :
    (initBackground envOk (fun _ => true) 0 1000 2000
        freshStartState).store.persisted =
      PersistEntry.record ⟨fetchNewBackground 1000, 2000⟩ :=
  (initBackground_fresh_generation envOk (fun _ => true) 0 1000 2000
    (by decide) rfl).2.2

theorem getCachedBackground_session (env : StorageEnv) (store : Storage)
    (now : Int) : (getCachedBackground env store now).2.session = store.session := by
  unfold getCachedBackground
  split
  · rfl
  split
  · rfl
  split
  · rfl
  · rfl
  · split
    · rfl
    · rfl

theorem getCachedBackground_persisted_urls (env : StorageEnv)
    (store : Storage) (now : Int) (hw : env.hasWindow = true)
    (hlr : env.localReadFails = false) (v : String) (hv : v ≠ "")
    (hne : truthy (getCachedBackground env store now).1 ≠ some v) :
    ∀ t : Int, (getCachedBackground env store now).2.persisted ≠
      PersistEntry.record ⟨v, t⟩ := by
  intro t
  cases hps : store.persisted with
  | absent => simp [getCachedBackground, hw, hlr, hps]
  | malformed => simp [getCachedBackground, hw, hlr, hps]
  | record data =>
      by_cases hexp : now - data.timestamp > BG_EXPIRE_TIME
      · simp [getCachedBackground, hw, hlr, hps, hexp]
      · simp only [getCachedBackground, hw, hlr, hps, if_neg hexp] at hne ⊢
        simp only [Bool.true_eq_false, if_false, Bool.false_eq_true] at hne ⊢
        intro hcontra
        rw [hps] at hcontra
        have hdata : data = ⟨v, t⟩ := PersistEntry.record.inj hcontra
        rw [hdata] at hne
        exact hne ((truthy_eq_some_iff _ _).mpr ⟨rfl, hv⟩)

/-- C5: in a working browser, a candidate URL whose preload fails is
never written anywhere.  During initialization: when the persisted
candidate fails, no tier of the resulting state holds it and resolution
proceeds to the generation step; when the generated candidate fails, no
tier of the resulting state holds it, whether or not a persisted
candidate was tried first.  During refreshBackground: when the generated
candidate fails, the state is entirely unchanged. -/
theorem preload_failure_never_written (env : StorageEnv)
    (preload : String → Bool) (tCacheRead tGen tCacheWrite : Int)
    (s : ResolverState) (u : String) (henv : healthyEnv env) :
    (truthy s.globalBg = none →
      truthy (getSessionBackground env s.store) = none →
      truthy (getCachedBackground env s.store tCacheRead).1 = some u →
      preload u = false →
      (∀ t : Int, (initBackground env preload tCacheRead tGen tCacheWrite
          s).store.persisted ≠ PersistEntry.record ⟨u, t⟩) ∧
      (initBackground env preload tCacheRead tGen tCacheWrite
          s).store.session ≠ some u ∧
      (initBackground env preload tCacheRead tGen tCacheWrite
          s).globalBg ≠ some u ∧
      (initBackground env preload tCacheRead tGen tCacheWrite
          s).backgroundUrl =
        (if preload (fetchNewBackground tGen) = true then fetchNewBackground tGen
         else s.backgroundUrl)) ∧
    (truthy s.globalBg = none →
      truthy (getSessionBackground env s.store) = none →
      preload (fetchNewBackground tGen) = false →
      (∀ t : Int, (initBackground env preload tCacheRead tGen tCacheWrite
          s).store.persisted ≠
        PersistEntry.record ⟨fetchNewBackground tGen, t⟩) ∧
      (initBackground env preload tCacheRead tGen tCacheWrite
          s).store.session ≠ some (fetchNewBackground tGen) ∧
      (initBackground env preload tCacheRead tGen tCacheWrite
          s).globalBg ≠ some (fetchNewBackground tGen)) ∧
    (preload (fetchNewBackground tGen) = false →
      refreshBackground env preload tGen tCacheWrite s = s) := by
  refine ⟨?_, ?_, ?_⟩
  · intro hg hs hr hp
    have hu : u ≠ "" := ((truthy_eq_some_iff _ _).mp hr).2
    rw [initBackground_fallthrough env preload tCacheRead tGen tCacheWrite s hg hs]
    cases hgen : preload (fetchNewBackground tGen) with
    | true =>
        have hne : fetchNewBackground tGen ≠ u := by
          intro he
          rw [he, hp] at hgen
          cases hgen
        rw [initFallthrough_cached_invalid_gen_valid env preload tCacheRead
          tGen tCacheWrite s u hr hp hgen]
        refine ⟨?_, ?_, ?_, ?_⟩
        · intro t
          simp only [setSessionBackground_persisted,
            setCachedBackground_healthy _ _ _ _ henv]
          intro hcontra
          exact hne (congrArg BackgroundCache.url
            (PersistEntry.record.inj hcontra))
        · simp only [setSessionBackground_healthy _ _ _ henv]
          intro hcontra
          exact hne (Option.some.inj hcontra)
        · intro hcontra
          exact hne (Option.some.inj hcontra)
        · simp [hgen]
    | false =>
        rw [initFallthrough_cached_invalid_gen_invalid env preload tCacheRead
          tGen tCacheWrite s u hr hp hgen]
        have hsession : s.store.session = none ∨ s.store.session = some "" := by
          rw [getSessionBackground_healthy env s.store henv] at hs
          exact (truthy_eq_none_iff _).mp hs
        have hglobal : s.globalBg = none ∨ s.globalBg = some "" :=
          (truthy_eq_none_iff _).mp hg
        refine ⟨?_, ?_, ?_, ?_⟩
        · intro t
          simp
        · show (getCachedBackground env s.store tCacheRead).2.session ≠ some u
          rw [getCachedBackground_session]
          rcases hsession with h1 | h1 <;> rw [h1] <;> intro hcontra
          · cases hcontra
          · exact hu (Option.some.inj hcontra).symm
        · show s.globalBg ≠ some u
          rcases hglobal with h1 | h1 <;> rw [h1] <;> intro hcontra
          · cases hcontra
          · exact hu (Option.some.inj hcontra).symm
        · simp [hgen]
  · intro hg hs hgen
    have hw := henv.1
    have hlr := henv.2.2.2.1
    have hgne : fetchNewBackground tGen ≠ "" := fetchNewBackground_ne_empty tGen
    have hsession : s.store.session = none ∨ s.store.session = some "" := by
      rw [getSessionBackground_healthy env s.store henv] at hs
      exact (truthy_eq_none_iff _).mp hs
    have hglobal : s.globalBg = none ∨ s.globalBg = some "" :=
      (truthy_eq_none_iff _).mp hg
    rw [initBackground_fallthrough env preload tCacheRead tGen tCacheWrite s hg hs]
    cases hr : truthy (getCachedBackground env s.store tCacheRead).1 with
    | none =>
        rw [initFallthrough_nocache_gen_invalid env preload tCacheRead tGen
          tCacheWrite s hr hgen]
        refine ⟨?_, ?_, ?_⟩
        · exact getCachedBackground_persisted_urls env s.store tCacheRead hw
            hlr (fetchNewBackground tGen) hgne (by rw [hr]; intro hc; cases hc)
        · show (getCachedBackground env s.store tCacheRead).2.session ≠
            some (fetchNewBackground tGen)
          rw [getCachedBackground_session]
          rcases hsession with h1 | h1 <;> rw [h1] <;> intro hcontra
          · cases hcontra
          · exact hgne (Option.some.inj hcontra).symm
        · show s.globalBg ≠ some (fetchNewBackground tGen)
          rcases hglobal with h1 | h1 <;> rw [h1] <;> intro hcontra
          · cases hcontra
          · exact hgne (Option.some.inj hcontra).symm
    | some v =>
        have hv : v ≠ "" := ((truthy_eq_some_iff _ _).mp hr).2
        cases hp : preload v with
        | true =>
            have hvne : v ≠ fetchNewBackground tGen := by
              intro he
              rw [he, hgen] at hp
              cases hp
            rw [initFallthrough_cached_valid env preload tCacheRead tGen
              tCacheWrite s v hr hp]
            refine ⟨?_, ?_, ?_⟩
            · intro t
              show (setSessionBackground env
                  (getCachedBackground env s.store tCacheRead).2 v).persisted ≠
                PersistEntry.record ⟨fetchNewBackground tGen, t⟩
              rw [setSessionBackground_persisted]
              exact getCachedBackground_persisted_urls env s.store tCacheRead
                hw hlr (fetchNewBackground tGen) hgne
                (by rw [hr]; intro hc; exact hvne (Option.some.inj hc)) t
            · simp only [setSessionBackground_healthy _ _ _ henv]
              intro hcontra
              exact hvne (Option.some.inj hcontra)
            · intro hcontra
              exact hvne (Option.some.inj hcontra)
        | false =>
            rw [initFallthrough_cached_invalid_gen_invalid env preload
              tCacheRead tGen tCacheWrite s v hr hp hgen]
            refine ⟨?_, ?_, ?_⟩
            · intro t
              simp
            · show (getCachedBackground env s.store tCacheRead).2.session ≠
                some (fetchNewBackground tGen)
              rw [getCachedBackground_session]
              rcases hsession with h1 | h1 <;> rw [h1] <;> intro hcontra
              · cases hcontra
              · exact hgne (Option.some.inj hcontra).symm
            · show s.globalBg ≠ some (fetchNewBackground tGen)
              rcases hglobal with h1 | h1 <;> rw [h1] <;> intro hcontra
              · cases hcontra
              · exact hgne (Option.some.inj hcontra).symm
  · intro hgen
    simp [refreshBackground, hgen]

/-- Concrete instantiation of preload_failure_never_written: a persisted
URL failing preload is purged and ends up in no tier. -/
theorem preload_failure_never_written_witness :
    (initBackground envOk (fun _ => false) 0 0 0
        (cachedStartState "u" 0)).store.session ≠ some "u" :=
  ((preload_failure_never_written envOk (fun _ => false) 0 0 0
      (cachedStartState "u" 0) "u" (by decide)).1 rfl (by decide) (by decide)
      rfl).2.1

/-- C10: isLoaded starts false at mount, setLoaded sets it true and
changes nothing else, the resolution pass never touches it, and
refreshBackground resets it to false exactly when preload of the fresh
URL succeeds and leaves it unchanged otherwise. -/
theorem isLoaded_transitions (env : StorageEnv) (preload : String → Bool)
    (tCacheRead tGen tCacheWrite : Int) (store0 : Storage)
    (s : ResolverState) :
    (initialResolverState store0).isLoaded = false ∧
    setLoaded s = { s with isLoaded := true } ∧
    (initBackground env preload tCacheRead tGen tCacheWrite s).isLoaded =
      s.isLoaded ∧
    (refreshBackground env preload tGen tCacheWrite s).isLoaded =
      (if preload (fetchNewBackground tGen) = true then false
       else s.isLoaded) := by
  refine ⟨rfl, rfl, ?_, ?_⟩
  · cases hg : truthy s.globalBg with
    | some g =>
        rw [initBackground_global env preload tCacheRead tGen tCacheWrite s g hg]
    | none =>
        cases hs : truthy (getSessionBackground env s.store) with
        | some v =>
            rw [initBackground_session env preload tCacheRead tGen tCacheWrite
              s v hg hs]
        | none =>
            rw [initBackground_fallthrough env preload tCacheRead tGen
              tCacheWrite s hg hs]
            cases hr : truthy (getCachedBackground env s.store tCacheRead).1 with
            | some v =>
                cases hp : preload v with
                | true =>
                    rw [initFallthrough_cached_valid env preload tCacheRead
                      tGen tCacheWrite s v hr hp]
                | false =>
                    cases hgen : preload (fetchNewBackground tGen) with
                    | true =>
                        rw [initFallthrough_cached_invalid_gen_valid env
                          preload tCacheRead tGen tCacheWrite s v hr hp hgen]
                    | false =>
                        rw [initFallthrough_cached_invalid_gen_invalid env
                          preload tCacheRead tGen tCacheWrite s v hr hp hgen]
            | none =>
                cases hgen : preload (fetchNewBackground tGen) with
                | true =>
                    rw [initFallthrough_nocache_gen_valid env preload
                      tCacheRead tGen tCacheWrite s hr hgen]
                | false =>
                    rw [initFallthrough_nocache_gen_invalid env preload
                      tCacheRead tGen tCacheWrite s hr hgen]
  · cases hgen : preload (fetchNewBackground tGen) with
    | true => simp [refreshBackground, hgen]
    | false => simp [refreshBackground, hgen]

end BackgroundResolver
